import Mathlib

/-!
Shallow embedding of `src/main.py` (google-doc-sheet-bypass).

The program talks to the outside world through three effectful collaborators,
modelled here as fields of a `World` record:
  * `http`    : the raw HTTP layer (`requests.get`).  `none` stands for a
    network error, timeout or any exception raised by the request; `some r`
    is a completed response with a status code, a byte body (`content`) and
    a text body (`text`).
  * `parse`   : `BeautifulSoup(text, "html.parser")`.  Parsing never fails;
    it yields a `Soup` recording exactly the observations the program makes
    of the parsed tree.
  * `convert` : `HtmlToDocx().parse_html_string` followed by `doc.save`,
    mapping the prettified HTML of the content root to the DOCX bytes;
    `none` stands for an exception raised by the converter.

Bytes are modelled as `List Nat`.  A Python function that can raise is
embedded with an `Except Unit` result; one that returns `None` on failure is
embedded with an `Option` result.  Logging calls are modelled by returning
the list of logged offending identifiers alongside the result where a claim
mentions them.
-/

/-- An HTTP response as observed by the program: `status_code`,
`content` (bytes) and `text` (decoded body). -/
structure Response where
  status : Nat
  content : List Nat
  text : String
deriving DecidableEq

/-- The observations the program makes of a parsed HTML tree.

`title` models `soup.title` / `soup.title.string`:
  * `none`: no (truthy) `<title>` element;
  * `some none`: a `<title>` element whose `.string` is `None` (for example
    a title with nested markup, where BeautifulSoup returns `None`);
  * `some (some t)`: a `<title>` element with `.string == t`.

`doc_div` models `soup.find("div", {"class": "doc"})` and the first nested
`<div>` of that container:
  * `none`: the container is absent;
  * `some none`: the container is present but has no nested `<div>`;
  * `some (some h)`: the container is present and `h` is the `prettify()`
    serialization of its first nested `<div>`. -/
structure Soup where
  title : Option (Option String)
  doc_div : Option (Option String)
deriving DecidableEq

/-- The external collaborators of the program (HTTP, HTML parser,
HTML-to-DOCX converter). -/
structure World where
  http : String → Option Response
  parse : String → Soup
  convert : String → Option (List Nat)

/-- URL of the spreadsheet HTML preview page
(`https://docs.google.com/spreadsheets/u/0/d/{spreadsheet_id}/htmlview`). -/
def htmlview_url (spreadsheet_id : String) : String :=
  "https://docs.google.com/spreadsheets/u/0/d/" ++ spreadsheet_id ++ "/htmlview"

/-- Direct CSV export URL
(`https://docs.google.com/spreadsheets/d/{spreadsheet_id}/export?format=csv&gid={sheet_id}`). -/
def export_url (spreadsheet_id sheet_id : String) : String :=
  "https://docs.google.com/spreadsheets/d/" ++ spreadsheet_id
    ++ "/export?format=csv&gid=" ++ sheet_id

/-- Query-based (gviz) CSV export URL
(`https://docs.google.com/spreadsheets/d/{spreadsheet_id}/gviz/tq?tqx=out:csv&gid={sheet_id}`). -/
def gviz_url (spreadsheet_id sheet_id : String) : String :=
  "https://docs.google.com/spreadsheets/d/" ++ spreadsheet_id
    ++ "/gviz/tq?tqx=out:csv&gid=" ++ sheet_id

/-- URL of the mobile-simplified document rendering
(`https://docs.google.com/document/d/{doc_id}/mobilebasic`). -/
def mobilebasic_url (doc_id : String) : String :=
  "https://docs.google.com/document/d/" ++ doc_id ++ "/mobilebasic"

/-- `fetch_url` (main.py lines 21-27): one GET; the response is returned only
when `status_code == 200`; a non-200 status yields `None`, and any exception
is caught, logged and mapped to `None`.  The exception branch is the
`w.http url = none` case of the model. -/
def fetch_url (w : World) (url : String) : Option Response :=
  match w.http url with
  | none => none
  | some response => if response.status = 200 then some response else none

/-- `fetch_html` (main.py lines 30-34): fetch, then parse `response.text`;
`None` when the fetch failed. -/
def fetch_html (w : World) (url : String) : Option Soup :=
  match fetch_url w url with
  | none => none
  | some response => some (w.parse response.text)

/-- The matches of the Python regex `gid=(\d+)` over a character list, in
order, as returned by `re.findall`: non-overlapping, left to right, each
capture being the maximal digit run after a literal `gid=`.  Scanning resumes
right after the literal `gid=`: no match can start inside `id=` or inside the
captured digit run (a match starts with `g`), so this is the non-overlapping
left-to-right scan of `re.findall`. -/
def findGids : List Char → List String
  | 'g' :: 'i' :: 'd' :: '=' :: rest =>
    match rest.takeWhile Char.isDigit with
    | [] => findGids rest
    | ds => ds.asString :: findGids rest
  | _ :: rest => findGids rest
  | [] => []

/-- `dict.fromkeys` on a list of keys: deduplication keeping the first
occurrence of each element, preserving first-appearance order. -/
def dedupFirst (l : List String) : List String :=
  l.foldl (fun acc x => if x ∈ acc then acc else acc ++ [x]) []

/-- `get_sheet_ids` (main.py lines 37-48): fetch the htmlview preview page;
on fetch failure return `["0"]`; otherwise collect the `gid=(\d+)` matches of
`response.text`, returning `["0"]` when there are none and the first-seen
deduplication otherwise. -/
def get_sheet_ids (w : World) (spreadsheet_id : String) : List String :=
  match fetch_url w (htmlview_url spreadsheet_id) with
  | none => ["0"]
  | some response =>
    match findGids response.text.data with
    | [] => ["0"]
    | sheet_ids => dedupFirst sheet_ids

/-- A character collapsed by the sanitization regex `[./ ]+`. -/
def isSep (c : Char) : Bool := c = '.' || c = '/' || c = ' '

/-- `re.sub(r"[./ ]+", "_", ·)` on a character list: every maximal run of
`.`, `/` and space characters becomes a single underscore.  The flag records
whether the previous character belonged to a (already replaced) separator
run. -/
def sanitizeChars : Bool → List Char → List Char
  | _, [] => []
  | inRun, c :: rest =>
    if isSep c then
      if inRun then sanitizeChars true rest
      else '_' :: sanitizeChars true rest
    else c :: sanitizeChars false rest

/-- `re.sub(r"[./ ]+", "_", title)` on a string. -/
def sanitize (s : String) : String := (sanitizeChars false s.data).asString

/-- `get_spreadsheet_title` (main.py lines 51-59): fetch and parse the
preview page; if the fetch failed or there is no `<title>` element, return
the fallback `spreadsheet_<id>`; otherwise take `soup.title.string` and
sanitize it.  When the `<title>` element is present but its `.string` is
`None`, `re.sub` is applied to `None` and raises `TypeError`: the `.error`
case. -/
def get_spreadsheet_title (w : World) (spreadsheet_id : String) :
    Except Unit String :=
  match fetch_html w (htmlview_url spreadsheet_id) with
  | none => .ok ("spreadsheet_" ++ spreadsheet_id)
  | some soup =>
    match soup.title with
    | none => .ok ("spreadsheet_" ++ spreadsheet_id)
    | some none => .error ()
    | some (some title) => .ok (sanitize title)

/-- The bytes of the HTML doctype marker `b"<!DOCTYPE"` checked by
`response.content.startswith`. -/
def doctype_marker : List Nat := "<!DOCTYPE".data.map Char.toNat

/-- The body of the `for url in urls` loop of `create_sheet`: try each URL in
order; skip a failed fetch; return the content of the first response whose
body is non-empty and does not start with `b"<!DOCTYPE"`; otherwise keep
trying, and return `None` when the list is exhausted. -/
def try_urls (w : World) : List String → Option (List Nat)
  | [] => none
  | url :: rest =>
    match fetch_url w url with
    | none => try_urls w rest
    | some response =>
      if response.content ≠ [] ∧ doctype_marker.isPrefixOf response.content = false
      then some response.content
      else try_urls w rest

/-- `create_sheet` (main.py lines 62-77): try the direct CSV export URL, then
the gviz CSV export URL; the returned `BytesIO` buffer is modelled by the
bytes it wraps. -/
def create_sheet (w : World) (spreadsheet_id sheet_id : String) :
    Option (List Nat) :=
  try_urls w [export_url spreadsheet_id sheet_id, gviz_url spreadsheet_id sheet_id]

/-- A fetch outcome `o` carries an acceptable CSV body `bs`: the response is
present and `bs` is its content, non-empty and not starting with the doctype
marker. -/
def acceptable (o : Option Response) (bs : List Nat) : Prop :=
  ∃ r, o = some r ∧ r.content = bs ∧ bs ≠ [] ∧ doctype_marker.isPrefixOf bs = false

/-- `create_spreadsheet` (main.py lines 80-97): for each discovered sheet id,
try to export it; a failed export is logged (second component collects the
logged sheet ids, in order) and skipped; each success contributes
`(<sheet_id>.csv, bytes)`.  If no sheet succeeded the function raises
`Exception("No sheet could be fetched")`, the `.error` case. -/
def create_spreadsheet (w : World) (spreadsheet_id : String) :
    Except Unit (List (String × List Nat)) × List String :=
  let step := fun (acc : List (String × List Nat) × List String) sheet_id =>
    match create_sheet w spreadsheet_id sheet_id with
    | none => (acc.1, acc.2 ++ [sheet_id])
    | some bs => (acc.1 ++ [(sheet_id ++ ".csv", bs)], acc.2)
  let acc := (get_sheet_ids w spreadsheet_id).foldl step ([], [])
  (if acc.1 = [] then .error () else .ok acc.1, acc.2)

/-- The title computation of `create_document` (main.py lines 103-106): the
fallback `document_<id>`, replaced by the sanitized `soup.title.string`
exactly when the fetch succeeded, the `<title>` element is truthy and its
`.string` is a truthy (present, non-empty) string. -/
def doc_title (soup : Option Soup) (doc_id : String) : String :=
  match soup with
  | none => "document_" ++ doc_id
  | some s =>
    match s.title with
    | some (some t) => if t = "" then "document_" ++ doc_id else sanitize t
    | _ => "document_" ++ doc_id

/-- `create_document` (main.py lines 100-117): fetch and parse the
mobilebasic page, compute the title, then walk
`soup.find("div", {"class": "doc"}).find("div").prettify()` and convert it.
A failed fetch (`soup = None`), a missing container, a container without a
nested `<div>`, or a converter exception each raise (`AttributeError` on
`None`, or the converter's own exception): the `.error` cases. -/
def create_document (w : World) (doc_id : String) :
    Except Unit (String × List Nat) :=
  let soup := fetch_html w (mobilebasic_url doc_id)
  let title := doc_title soup doc_id
  match soup with
  | none => .error ()
  | some s =>
    match s.doc_div with
    | none => .error ()
    | some none => .error ()
    | some (some html) =>
      match w.convert html with
      | none => .error ()
      | some bs => .ok (title ++ ".docx", bs)

/-- The body of the `for doc_id in doc_ids` loop of `download` (main.py
lines 134-149), as the archive entries the id contributes: `none` when the
`try` block raised (the exception is caught and the id logged), `some
entries` when the id was processed, each entry being `(path, bytes)` written
with `zip_file.writestr`.  For `doc_type == "docx"` one flat entry; for
`doc_type == "csv"` the spreadsheet's files under the title-derived
directory; any other type raises `ValueError("Invalid document type")`. -/
def process_doc_id (w : World) (doc_type doc_id : String) :
    Option (List (String × List Nat)) :=
  if doc_type = "docx" then
    match create_document w doc_id with
    | .error _ => none
    | .ok (filename, bs) => some [(filename, bs)]
  else if doc_type = "csv" then
    match get_spreadsheet_title w doc_id with
    | .error _ => none
    | .ok dirname =>
      match (create_spreadsheet w doc_id).1 with
      | .error _ => none
      | .ok files => some (files.map (fun p => (dirname ++ "/" ++ p.1, p.2)))
  else none

/-- `download` (main.py lines 125-159): loop over `doc_ids`, catching every
per-id exception; the first component is the ordered list of `(path, bytes)`
entries written into the zip archive (an empty list is the valid empty zip
stream), the second the list of ids logged by the `except` branch. -/
def download (w : World) (doc_type : String) (doc_ids : List String) :
    List (String × List Nat) × List String :=
  doc_ids.foldl
    (fun acc doc_id =>
      match process_doc_id w doc_type doc_id with
      | none => (acc.1, acc.2 ++ [doc_id])
      | some entries => (acc.1 ++ entries, acc.2))
    ([], [])

/-! ### Helper lemmas -/

theorem string_append_left_cancel {s a b : String} (h : s ++ a = s ++ b) :
    a = b := by
  have hd : s.data ++ a.data = s.data ++ b.data := by
    rw [← String.data_append s a, ← String.data_append s b, h]
  exact String.ext (List.append_cancel_left hd)

theorem string_append_right_cancel {a b s : String} (h : a ++ s = b ++ s) :
    a = b := by
  have hd : a.data ++ s.data = b.data ++ s.data := by
    rw [← String.data_append a s, ← String.data_append b s, h]
  exact String.ext (List.append_cancel_right hd)

theorem dedupFirst_go (l : List String) :
    ∀ acc, ∃ s,
      l.foldl (fun acc x => if x ∈ acc then acc else acc ++ [x]) acc = acc ++ s
      ∧ s.Sublist l
      ∧ (∀ x ∈ s, x ∉ acc)
      ∧ (acc.Nodup → (acc ++ s).Nodup)
      ∧ (∀ x, x ∈ acc ++ s ↔ x ∈ acc ∨ x ∈ l) := by
  induction l with
  | nil =>
    intro acc
    exact ⟨[], by simp⟩
  | cons y l ih =>
    intro acc
    by_cases hy : y ∈ acc
    · obtain ⟨s, hres, hsub, hdis, hnd, hmem⟩ := ih acc
      refine ⟨s, ?_, hsub.cons y, hdis, hnd, ?_⟩
      · rw [List.foldl_cons, if_pos hy]
        exact hres
      · intro x
        have h1 := hmem x
        rw [h1]
        simp only [List.mem_cons]
        constructor
        · rintro (h | h)
          · exact Or.inl h
          · exact Or.inr (Or.inr h)
        · rintro (h | rfl | h)
          · exact Or.inl h
          · exact Or.inl hy
          · exact Or.inr h
    · obtain ⟨s, hres, hsub, hdis, hnd, hmem⟩ := ih (acc ++ [y])
      refine ⟨y :: s, ?_, hsub.cons₂ y, ?_, ?_, ?_⟩
      · rw [List.foldl_cons, if_neg hy, hres, List.append_assoc]
        rfl
      · intro x hx hxa
        rcases List.mem_cons.mp hx with rfl | hx
        · exact hy hxa
        · exact hdis x hx (List.mem_append_left _ hxa)
      · intro hacc
        have h2 : (acc ++ [y]).Nodup := by
          rw [List.nodup_append]
          refine ⟨hacc, List.nodup_singleton y, ?_⟩
          intro x hxa hxy
          rw [List.mem_singleton] at hxy
          subst hxy
          exact hy hxa
        have h3 := hnd h2
        rw [List.append_assoc] at h3
        exact h3
      · intro x
        have h1 := hmem x
        simp only [List.mem_append, List.mem_cons, List.mem_singleton,
          List.not_mem_nil, or_false] at h1 ⊢
        tauto

theorem dedupFirst_sublist (l : List String) : (dedupFirst l).Sublist l := by
  obtain ⟨s, hres, hsub, -, -, -⟩ := dedupFirst_go l []
  rw [List.nil_append] at hres
  rw [dedupFirst, hres]
  exact hsub

theorem dedupFirst_nodup (l : List String) : (dedupFirst l).Nodup := by
  obtain ⟨s, hres, -, -, hnd, -⟩ := dedupFirst_go l []
  rw [List.nil_append] at hres
  rw [dedupFirst, hres]
  simpa using hnd List.nodup_nil

theorem mem_dedupFirst (l : List String) (x : String) :
    x ∈ dedupFirst l ↔ x ∈ l := by
  obtain ⟨s, hres, -, -, -, hmem⟩ := dedupFirst_go l []
  rw [List.nil_append] at hres
  rw [dedupFirst, hres]
  simpa using hmem x

theorem create_spreadsheet_foldl (w : World) (sid : String)
    (tabs : List String) :
    ∀ acc : List (String × List Nat) × List String,
      tabs.foldl (fun acc sheet_id =>
          match create_sheet w sid sheet_id with
          | none => (acc.1, acc.2 ++ [sheet_id])
          | some bs => (acc.1 ++ [(sheet_id ++ ".csv", bs)], acc.2)) acc
      = (acc.1 ++ tabs.filterMap
            (fun t => (create_sheet w sid t).map (fun bs => (t ++ ".csv", bs))),
         acc.2 ++ tabs.filter (fun t => (create_sheet w sid t).isNone)) := by
  induction tabs with
  | nil =>
    intro acc
    simp
  | cons t tabs ih =>
    intro acc
    rw [List.foldl_cons]
    cases hf : create_sheet w sid t with
    | none =>
      simp only [hf, List.filterMap_cons, List.filter_cons, Option.map_none',
        Option.isNone_none, if_pos, ih]
      simp [List.append_assoc]
    | some bs =>
      simp only [hf, List.filterMap_cons, List.filter_cons, Option.map_some',
        Option.isNone_some, ih]
      simp [List.append_assoc]

theorem download_foldl (w : World) (dt : String) (ids : List String) :
    ∀ acc : List (String × List Nat) × List String,
      ids.foldl (fun acc doc_id =>
          match process_doc_id w dt doc_id with
          | none => (acc.1, acc.2 ++ [doc_id])
          | some entries => (acc.1 ++ entries, acc.2)) acc
      = (acc.1 ++ (ids.filterMap (process_doc_id w dt)).flatten,
         acc.2 ++ ids.filter (fun i => (process_doc_id w dt i).isNone)) := by
  induction ids with
  | nil =>
    intro acc
    simp
  | cons i ids ih =>
    intro acc
    rw [List.foldl_cons]
    cases hf : process_doc_id w dt i with
    | none =>
      simp only [hf, List.filterMap_cons, List.filter_cons, Option.isNone_none,
        if_pos, ih]
      simp [List.append_assoc]
    | some entries =>
      simp only [hf, List.filterMap_cons, List.filter_cons, Option.isNone_some,
        ih]
      simp [List.append_assoc]

theorem download_eq (w : World) (dt : String) (ids : List String) :
    download w dt ids
      = ((ids.filterMap (process_doc_id w dt)).flatten,
         ids.filter (fun i => (process_doc_id w dt i).isNone)) := by
  unfold download
  rw [download_foldl]
  simp

theorem create_spreadsheet_eq (w : World) (sid : String) :
    create_spreadsheet w sid
      = (if (get_sheet_ids w sid).filterMap
            (fun t => (create_sheet w sid t).map (fun bs => (t ++ ".csv", bs)))
            = []
         then .error ()
         else .ok ((get_sheet_ids w sid).filterMap
            (fun t => (create_sheet w sid t).map (fun bs => (t ++ ".csv", bs)))),
         (get_sheet_ids w sid).filter
            (fun t => (create_sheet w sid t).isNone)) := by
  simp only [create_spreadsheet]
  rw [create_spreadsheet_foldl]
  simp

theorem create_spreadsheet_ok_files (w : World) (sid : String)
    (files : List (String × List Nat))
    (hok : (create_spreadsheet w sid).1 = .ok files) :
    files = (get_sheet_ids w sid).filterMap
      (fun t => (create_sheet w sid t).map (fun bs => (t ++ ".csv", bs))) := by
  rw [create_spreadsheet_eq] at hok
  by_cases hc : (get_sheet_ids w sid).filterMap
      (fun t => (create_sheet w sid t).map (fun bs => (t ++ ".csv", bs)))
      = []
  · rw [if_pos hc] at hok
    exact absurd hok (by simp)
  · rw [if_neg hc] at hok
    simp only [Except.ok.injEq] at hok
    exact hok.symm

/-! ### Claim theorems -/

/-- C7: for every URL, the fetcher returns a present response if and only if
the HTTP status code is exactly 200; every non-200 status and every network
error, timeout or exception (the `w.http url = none` case) is mapped to an
absent result.  `fetch_url` is a total function into `Option Response`, so
it never raises to its caller. -/
theorem fetch_url_spec (w : World) (url : String) :
    (∀ r, fetch_url w url = some r ↔ w.http url = some r ∧ r.status = 200)
    ∧ (w.http url = none → fetch_url w url = none)
    ∧ (∀ r, w.http url = some r → r.status ≠ 200 → fetch_url w url = none) := by
  refine ⟨?_, ?_, ?_⟩
  · intro r
    unfold fetch_url
    cases hh : w.http url with
    | none => simp
    | some r0 =>
      by_cases hs : r0.status = 200
      · simp only [if_pos hs, Option.some.injEq]
        constructor
        · rintro rfl
          exact ⟨rfl, hs⟩
        · rintro ⟨h, -⟩
          exact h
      · simp only [if_neg hs, Option.some.injEq]
        constructor
        · intro h
          exact absurd h (by simp)
        · rintro ⟨rfl, hs2⟩
          exact absurd hs2 hs
  · intro h
    unfold fetch_url
    rw [h]
  · intro r hh hs
    unfold fetch_url
    rw [hh]
    simp [hs]

/-- World for the `fetch_url` witness: the HTTP layer fails on every URL. -/
def wFetchFail : World where
  http := fun _ => none
  parse := fun _ => ⟨none, none⟩
  convert := fun _ => none

/-- Witness for C7 at a concrete world whose HTTP layer raises. -/
theorem fetch_url_spec_witness : fetch_url wFetchFail "u" = none :=
  (fetch_url_spec wFetchFail "u").2.1 rfl

/-- World for the C5 example: the preview page of spreadsheet `s` contains
repeated `gid=7` occurrences interleaved with `gid=3`; every other URL is
unreachable. -/
def wGids : World where
  http := fun u =>
    if u = htmlview_url "s"
    then some ⟨200, [], "x gid=7 y gid=3 z gid=7 v gid=3 u"⟩
    else none
  parse := fun _ => ⟨none, none⟩
  convert := fun _ => none

/-- C5: `get_sheet_ids` returns exactly `["0"]` when the preview-page fetch
fails (network error or non-200 status); otherwise it returns the
`gid=<digits>` matches of the page text deduplicated to unique ids in order
of first appearance (a sublist of the match list, without duplicates, with
the same members), falling back to `["0"]` when there is no match; on a page
with repeated `gid=7` interleaved with `gid=3` it returns `["7", "3"]`. -/
theorem get_sheet_ids_spec (w : World) (sid : String) :
    (w.http (htmlview_url sid) = none → get_sheet_ids w sid = ["0"])
    ∧ (∀ r, w.http (htmlview_url sid) = some r → r.status ≠ 200 →
        get_sheet_ids w sid = ["0"])
    ∧ (∀ r, fetch_url w (htmlview_url sid) = some r →
        (findGids r.text.data = [] → get_sheet_ids w sid = ["0"])
        ∧ (findGids r.text.data ≠ [] →
            get_sheet_ids w sid = dedupFirst (findGids r.text.data)
            ∧ (get_sheet_ids w sid).Nodup
            ∧ (∀ x, x ∈ get_sheet_ids w sid ↔ x ∈ findGids r.text.data)
            ∧ (get_sheet_ids w sid).Sublist (findGids r.text.data)))
    ∧ get_sheet_ids wGids "s" = ["7", "3"] := by
  refine ⟨?_, ?_, ?_, by decide⟩
  · intro h
    unfold get_sheet_ids fetch_url
    rw [h]
  · intro r hh hs
    unfold get_sheet_ids fetch_url
    rw [hh]
    simp [hs]
  · intro r hf
    constructor
    · intro hg
      unfold get_sheet_ids
      rw [hf]
      simp only [hg]
    · intro hg
      have heq : get_sheet_ids w sid = dedupFirst (findGids r.text.data) := by
        unfold get_sheet_ids
        rw [hf]
        cases hc : findGids r.text.data with
        | nil => exact absurd hc hg
        | cons a l => simp only [hc]
      refine ⟨heq, ?_, ?_, ?_⟩
      · rw [heq]
        exact dedupFirst_nodup _
      · intro x
        rw [heq]
        exact mem_dedupFirst _ x
      · rw [heq]
        exact dedupFirst_sublist _

/-- World for the C5 witness: the preview page of every spreadsheet is
unreachable. -/
def wGidsDown : World where
  http := fun _ => none
  parse := fun _ => ⟨none, none⟩
  convert := fun _ => none

/-- Witness for C5: with the preview page unreachable, the discovered tab
list is exactly `["0"]`. -/
theorem get_sheet_ids_spec_witness : get_sheet_ids wGidsDown "s" = ["0"] :=
  (get_sheet_ids_spec wGidsDown "s").1 rfl

/-- World for the C6 counterexample: the preview page of spreadsheet `s`
fetches fine (HTTP 200) but its `<title>` element has nested markup, so
`soup.title` is truthy while `soup.title.string` is `None`. -/
def wTitleNone : World where
  http := fun u =>
    if u = htmlview_url "s" then some ⟨200, [], "page"⟩ else none
  parse := fun _ => ⟨some none, none⟩
  convert := fun _ => none

/-- Counterexample to C6 as stated: on a page whose `<title>` element is
present but carries no string (`soup.title.string is None`),
`get_spreadsheet_title` neither returns the fallback `spreadsheet_<id>` nor
a sanitized title: `re.sub` is applied to `None` and raises `TypeError`
(the `.error` result), although the fetch succeeded. -/
theorem get_spreadsheet_title_cex :
    fetch_html wTitleNone (htmlview_url "s") = some ⟨some none, none⟩
    ∧ get_spreadsheet_title wTitleNone "s" = .error ()
    ∧ get_spreadsheet_title wTitleNone "s" ≠ .ok ("spreadsheet_" ++ "s")
    ∧ ∀ t : String, get_spreadsheet_title wTitleNone "s" ≠ .ok t := by
  refine ⟨rfl, rfl, ?_, ?_⟩
  · intro h
    rw [show get_spreadsheet_title wTitleNone "s" = .error () from rfl] at h
    exact absurd h (by simp)
  · intro t h
    rw [show get_spreadsheet_title wTitleNone "s" = .error () from rfl] at h
    exact absurd h (by simp)

/-- C6 (amended): `spreadsheet_title` returns the fallback `spreadsheet_<id>`
whenever the preview-page fetch fails or no `<title>` element is present;
when a `<title>` element is present with a string value, it returns that
title with every run of `.`, space and `/` collapsed to one underscore (so
"My Sheet / Q1.2024" becomes "My_Sheet_Q1_2024"); when a `<title>` element
is present but has no string value, the function raises `TypeError` instead
(propagated to its caller). -/
theorem get_spreadsheet_title_spec (w : World) (sid : String) :
    (fetch_html w (htmlview_url sid) = none →
      get_spreadsheet_title w sid = .ok ("spreadsheet_" ++ sid))
    ∧ (∀ s, fetch_html w (htmlview_url sid) = some s →
        (s.title = none →
          get_spreadsheet_title w sid = .ok ("spreadsheet_" ++ sid))
        ∧ (s.title = some none → get_spreadsheet_title w sid = .error ())
        ∧ (∀ t, s.title = some (some t) →
            get_spreadsheet_title w sid = .ok (sanitize t)))
    ∧ sanitize "My Sheet / Q1.2024" = "My_Sheet_Q1_2024" := by
  refine ⟨?_, ?_, by decide⟩
  · intro h
    unfold get_spreadsheet_title
    rw [h]
  · intro s hf
    refine ⟨?_, ?_, ?_⟩
    · intro ht
      unfold get_spreadsheet_title
      rw [hf]
      simp only [ht]
    · intro ht
      unfold get_spreadsheet_title
      rw [hf]
      simp only [ht]
    · intro t ht
      unfold get_spreadsheet_title
      rw [hf]
      simp only [ht]

/-- World for the C6 witness: the preview page of spreadsheet `q` has the
title "My Sheet / Q1.2024". -/
def wTitled : World where
  http := fun u =>
    if u = htmlview_url "q" then some ⟨200, [], "page"⟩ else none
  parse := fun _ => ⟨some (some "My Sheet / Q1.2024"), none⟩
  convert := fun _ => none

/-- Witness for C6: the sanitized spreadsheet title at a concrete world. -/
theorem get_spreadsheet_title_spec_witness :
    get_spreadsheet_title wTitled "q" = .ok "My_Sheet_Q1_2024" := by
  have h := ((get_spreadsheet_title_spec wTitled "q").2.1
    ⟨some (some "My Sheet / Q1.2024"), none⟩ rfl).2.2
    "My Sheet / Q1.2024" rfl
  rw [h]
  rfl

theorem try_urls_cons_eq (w : World) (u : String) (rest : List String) :
    try_urls w (u :: rest)
      = match fetch_url w u with
        | none => try_urls w rest
        | some r =>
          if r.content ≠ [] ∧ doctype_marker.isPrefixOf r.content = false
          then some r.content
          else try_urls w rest := rfl

theorem try_urls_cons (w : World) (u : String) (rest : List String) :
    (∀ bs, acceptable (fetch_url w u) bs → try_urls w (u :: rest) = some bs)
    ∧ ((¬ ∃ bs, acceptable (fetch_url w u) bs) →
        try_urls w (u :: rest) = try_urls w rest) := by
  constructor
  · rintro bs ⟨r, hr, hcont, hne, hpre⟩
    rw [try_urls_cons_eq, hr]
    show (if r.content ≠ [] ∧ doctype_marker.isPrefixOf r.content = false
          then some r.content else try_urls w rest) = some bs
    rw [hcont, if_pos ⟨hne, hpre⟩]
  · intro h
    cases hr : fetch_url w u with
    | none => rw [try_urls_cons_eq, hr]
    | some r =>
      rw [try_urls_cons_eq, hr]
      show (if r.content ≠ [] ∧ doctype_marker.isPrefixOf r.content = false
            then some r.content else try_urls w rest) = try_urls w rest
      rw [if_neg]
      rintro ⟨hne, hpre⟩
      exact h ⟨r.content, r, hr, rfl, hne, hpre⟩

/-- C4: `create_sheet` tries the direct CSV export URL first and the gviz
CSV export URL second, and returns the body of the first successful response
that is non-empty and does not begin with `<!DOCTYPE`; it is `none` exactly
when neither URL yields such a body; and a 200 response beginning with
`<!DOCTYPE` on the first URL is skipped, leaving the result entirely to the
second URL. -/
theorem create_sheet_spec (w : World) (sid gid : String) :
    (∀ bs, acceptable (fetch_url w (export_url sid gid)) bs →
      create_sheet w sid gid = some bs)
    ∧ ((¬ ∃ bs, acceptable (fetch_url w (export_url sid gid)) bs) →
        ∀ bs, acceptable (fetch_url w (gviz_url sid gid)) bs →
          create_sheet w sid gid = some bs)
    ∧ (create_sheet w sid gid = none ↔
        ((¬ ∃ bs, acceptable (fetch_url w (export_url sid gid)) bs)
         ∧ (¬ ∃ bs, acceptable (fetch_url w (gviz_url sid gid)) bs)))
    ∧ (∀ r, fetch_url w (export_url sid gid) = some r → r.status = 200 →
        doctype_marker.isPrefixOf r.content = true →
        create_sheet w sid gid = try_urls w [gviz_url sid gid]) := by
  refine ⟨?_, ?_, ?_, ?_⟩
  · intro bs h
    exact (try_urls_cons w (export_url sid gid) [gviz_url sid gid]).1 bs h
  · intro h bs h2
    unfold create_sheet
    rw [(try_urls_cons w (export_url sid gid) [gviz_url sid gid]).2 h]
    exact (try_urls_cons w (gviz_url sid gid) []).1 bs h2
  · constructor
    · intro h
      by_cases h1 : ∃ bs, acceptable (fetch_url w (export_url sid gid)) bs
      · obtain ⟨bs, hacc⟩ := h1
        have := (try_urls_cons w (export_url sid gid) [gviz_url sid gid]).1
          bs hacc
        rw [show create_sheet w sid gid
            = try_urls w [export_url sid gid, gviz_url sid gid] from rfl,
          this] at h
        exact absurd h (by simp)
      · refine ⟨h1, ?_⟩
        rintro ⟨bs, hacc⟩
        have h2 := (try_urls_cons w (export_url sid gid)
          [gviz_url sid gid]).2 h1
        have h3 := (try_urls_cons w (gviz_url sid gid) []).1 bs hacc
        rw [show create_sheet w sid gid
            = try_urls w [export_url sid gid, gviz_url sid gid] from rfl,
          h2, h3] at h
        exact absurd h (by simp)
    · rintro ⟨h1, h2⟩
      unfold create_sheet
      rw [(try_urls_cons w (export_url sid gid) [gviz_url sid gid]).2 h1,
        (try_urls_cons w (gviz_url sid gid) []).2 h2]
      rfl
  · intro r hr hstatus hpre
    rw [show create_sheet w sid gid
        = try_urls w [export_url sid gid, gviz_url sid gid] from rfl,
      try_urls_cons_eq, hr]
    show (if r.content ≠ [] ∧ doctype_marker.isPrefixOf r.content = false
          then some r.content
          else try_urls w [gviz_url sid gid]) = try_urls w [gviz_url sid gid]
    rw [if_neg]
    rintro ⟨-, hfalse⟩
    rw [hpre] at hfalse
    exact absurd hfalse (by simp)

/-- World for the C4 witness: the direct export URL of spreadsheet `s`, tab
`0`, answers HTTP 200 with an HTML login page (`<!DOCTYPE ...`), the gviz
URL answers with CSV bytes `[65, 10]`. -/
def wDoctype : World where
  http := fun u =>
    if u = export_url "s" "0"
    then some ⟨200, "<!DOCTYPE html>".data.map Char.toNat, "<!DOCTYPE html>"⟩
    else if u = gviz_url "s" "0"
    then some ⟨200, [65, 10], "A\n"⟩
    else none
  parse := fun _ => ⟨none, none⟩
  convert := fun _ => none

/-- Witness for C4: the `<!DOCTYPE` response on the first URL, although its
status is 200, is skipped and the gviz body is returned. -/
theorem create_sheet_spec_witness :
    create_sheet wDoctype "s" "0" = some [65, 10] := by
  have h := (create_sheet_spec wDoctype "s" "0").2.2.2
    ⟨200, "<!DOCTYPE html>".data.map Char.toNat, "<!DOCTYPE html>"⟩
    (by decide) rfl (by decide)
  rw [h]
  decide

/-- C3: resolving a spreadsheet exports each discovered tab in order, naming
each successful export `<tab_id>.csv` (the successes are exactly the
`filterMap` of the export over the discovered tab list, in discovery order);
a tab whose export fails is logged (second component) and skipped; and the
result is the `No sheet could be fetched` error if and only if zero tabs
succeed. -/
theorem create_spreadsheet_spec (w : World) (sid : String) :
    (∀ files, (create_spreadsheet w sid).1 = .ok files →
      files = (get_sheet_ids w sid).filterMap
        (fun t => (create_sheet w sid t).map (fun bs => (t ++ ".csv", bs))))
    ∧ (create_spreadsheet w sid).2
        = (get_sheet_ids w sid).filter (fun t => (create_sheet w sid t).isNone)
    ∧ ((create_spreadsheet w sid).1 = .error ()
        ↔ ∀ t ∈ get_sheet_ids w sid, create_sheet w sid t = none) := by
  have hmain := create_spreadsheet_eq w sid
  have hnil : ((get_sheet_ids w sid).filterMap
      (fun t => (create_sheet w sid t).map (fun bs => (t ++ ".csv", bs)))
      = [])
      ↔ ∀ t ∈ get_sheet_ids w sid, create_sheet w sid t = none := by
    rw [List.filterMap_eq_nil_iff]
    constructor
    · intro h t ht
      have := h t ht
      exact Option.map_eq_none'.mp this
    · intro h t ht
      rw [h t ht]
      rfl
  refine ⟨?_, ?_, ?_⟩
  · intro files hok
    exact create_spreadsheet_ok_files w sid files hok
  · rw [hmain]
  · rw [hmain]
    by_cases hc : (get_sheet_ids w sid).filterMap
        (fun t => (create_sheet w sid t).map (fun bs => (t ++ ".csv", bs)))
        = []
    · rw [if_pos hc]
      simp only [true_iff]
      exact hnil.mp hc
    · rw [if_neg hc]
      constructor
      · intro h
        exact absurd h (by simp)
      · intro h
        exact absurd (hnil.mpr h) hc

/-- World for the C3 witness: every URL is unreachable, so the single
default tab `0` cannot be exported and the whole spreadsheet resolution
fails. -/
def wAllTabsFail : World where
  http := fun _ => none
  parse := fun _ => ⟨none, none⟩
  convert := fun _ => none

/-- Witness for C3: with zero exportable tabs, `create_spreadsheet` raises
the `No sheet could be fetched` error. -/
theorem create_spreadsheet_spec_witness :
    (create_spreadsheet wAllTabsFail "s").1 = .error () :=
  (create_spreadsheet_spec wAllTabsFail "s").2.2.mpr (by decide)

/-- World for the C2 counterexample: the mobilebasic page of document `d`
fetches fine and has the content container with a nested `<div>`, but the
HTML-to-DOCX converter raises. -/
def wConvFail : World where
  http := fun _ => some ⟨200, [], "page"⟩
  parse := fun _ => ⟨none, some (some "h")⟩
  convert := fun _ => none

/-- Counterexample to C2 as stated: the fetch succeeds and the content
container is present, yet `create_document` still raises, because the
conversion of the extracted HTML fails.  So "error iff fetch fails or
container absent" does not hold. -/
theorem create_document_cex :
    fetch_html wConvFail (mobilebasic_url "d") = some ⟨none, some (some "h")⟩
    ∧ (Soup.mk none (some (some "h"))).doc_div ≠ none
    ∧ create_document wConvFail "d" = .error () := by
  refine ⟨rfl, ?_, rfl⟩
  simp

/-- C2 (amended): `create_document` returns a pair if and only if the page
fetch succeeds, the content container and its first nested element are
present, and the conversion of the extracted HTML succeeds; when it returns
`(filename, bytes)`, the bytes are the converted content and the filename is
the title with the `.docx` extension, where the title is the sanitized page
title when a `<title>` element with non-empty string content is present and
the fallback `document_<id>` otherwise. -/
theorem create_document_spec (w : World) (doc_id : String) :
    ((∃ p, create_document w doc_id = .ok p) ↔
      ∃ s html, fetch_html w (mobilebasic_url doc_id) = some s
        ∧ s.doc_div = some (some html) ∧ (w.convert html).isSome = true)
    ∧ (∀ fn bs, create_document w doc_id = .ok (fn, bs) →
        ∃ s html, fetch_html w (mobilebasic_url doc_id) = some s
          ∧ s.doc_div = some (some html) ∧ w.convert html = some bs
          ∧ fn = doc_title (some s) doc_id ++ ".docx")
    ∧ (∀ s, (∀ t, s.title = some (some t) → t ≠ "" →
          doc_title (some s) doc_id = sanitize t)
        ∧ (s.title = none ∨ s.title = some none ∨ s.title = some (some "") →
          doc_title (some s) doc_id = "document_" ++ doc_id)) := by
  refine ⟨⟨?_, ?_⟩, ?_, ?_⟩
  · rintro ⟨p, hp⟩
    cases hf : fetch_html w (mobilebasic_url doc_id) with
    | none =>
      simp only [create_document, hf] at hp
      exact absurd hp (by simp)
    | some s =>
      cases hd : s.doc_div with
      | none =>
        simp only [create_document, hf, hd] at hp
        exact absurd hp (by simp)
      | some inner =>
        cases inner with
        | none =>
          simp only [create_document, hf, hd] at hp
          exact absurd hp (by simp)
        | some html =>
          cases hc : w.convert html with
          | none =>
            simp only [create_document, hf, hd, hc] at hp
            exact absurd hp (by simp)
          | some bs =>
            refine ⟨s, html, rfl, hd, ?_⟩
            rw [hc]
            rfl
  · rintro ⟨s, html, hf, hd, hc⟩
    obtain ⟨bs, hbs⟩ := Option.isSome_iff_exists.mp hc
    refine ⟨(doc_title (some s) doc_id ++ ".docx", bs), ?_⟩
    simp only [create_document, hf, hd, hbs]
  · intro fn bs hok
    cases hf : fetch_html w (mobilebasic_url doc_id) with
    | none =>
      simp only [create_document, hf] at hok
      exact absurd hok (by simp)
    | some s =>
      cases hd : s.doc_div with
      | none =>
        simp only [create_document, hf, hd] at hok
        exact absurd hok (by simp)
      | some inner =>
        cases inner with
        | none =>
          simp only [create_document, hf, hd] at hok
          exact absurd hok (by simp)
        | some html =>
          cases hc : w.convert html with
          | none =>
            simp only [create_document, hf, hd, hc] at hok
            exact absurd hok (by simp)
          | some bs0 =>
            simp only [create_document, hf, hd, hc, Except.ok.injEq,
              Prod.mk.injEq] at hok
            exact ⟨s, html, rfl, hd, by rw [hc, hok.2], hok.1.symm⟩
  · intro s
    constructor
    · intro t ht hne
      simp only [doc_title, ht]
      rw [if_neg hne]
    · rintro (ht | ht | ht) <;> simp [doc_title, ht]

/-- World for the C2 witness: the mobilebasic page of document `d` has an
extractable content body and the converter succeeds. -/
def wDocOk : World where
  http := fun _ => some ⟨200, [], "page"⟩
  parse := fun _ => ⟨some (some "My Doc"), some (some "body")⟩
  convert := fun _ => some [1, 2]

/-- Witness for C2: at a concrete world with fetch, container and conversion
all succeeding, `create_document` returns a pair. -/
theorem create_document_spec_witness :
    ∃ p, create_document wDocOk "d" = .ok p :=
  (create_document_spec wDocOk "d").1.mpr
    ⟨⟨some (some "My Doc"), some (some "body")⟩, "body", rfl, rfl, rfl⟩

/-- World for the C10 counterexample: the mobilebasic page of document `d`
fetches fine and the content container is present, but the container has no
nested `<div>`; the page has no title. -/
def wNoInner : World where
  http := fun _ => some ⟨200, [], "page"⟩
  parse := fun _ => ⟨none, some none⟩
  convert := fun _ => some [0]

/-- Counterexample to C10 as stated: fetch succeeded, the content container
is present and the title element is missing, yet the resolver does not
succeed with the fallback filename — it raises, because the container has no
nested `<div>` (`inner` is `None` and `inner.prettify()` raises). -/
theorem create_document_fallback_cex :
    fetch_html wNoInner (mobilebasic_url "d") = some ⟨none, some none⟩
    ∧ (Soup.mk none (some none)).doc_div.isSome = true
    ∧ (Soup.mk none (some none)).title = none
    ∧ create_document wNoInner "d" = .error () :=
  ⟨rfl, rfl, rfl, rfl⟩

/-- C10 (amended): whenever the page fetch succeeds, the content container
and its first nested element are present and the conversion succeeds, and
the page's title element is missing, has no string, or has an empty string,
`create_document` succeeds and returns the fallback filename
`document_<id>.docx` with the converted bytes. -/
theorem create_document_fallback_title (w : World) (doc_id : String)
    (s : Soup) (html : String) (bs : List Nat)
    (hf : fetch_html w (mobilebasic_url doc_id) = some s)
    (hd : s.doc_div = some (some html))
    (hc : w.convert html = some bs)
    (ht : s.title = none ∨ s.title = some none ∨ s.title = some (some "")) :
    create_document w doc_id = .ok (("document_" ++ doc_id) ++ ".docx", bs) := by
  have htitle : doc_title (some s) doc_id = "document_" ++ doc_id := by
    rcases ht with ht | ht | ht <;> simp [doc_title, ht]
  simp only [create_document, hf, hd, hc, htitle]

/-- World for the C10 witness: a titleless document page with an extractable
body. -/
def wNoTitle : World where
  http := fun _ => some ⟨200, [], "page"⟩
  parse := fun _ => ⟨none, some (some "b")⟩
  convert := fun _ => some [5]

/-- Witness for C10: at a concrete titleless world the resolver returns the
fallback filename. -/
theorem create_document_fallback_title_witness :
    create_document wNoTitle "d" = .ok (("document_" ++ "d") ++ ".docx", [5]) :=
  create_document_fallback_title wNoTitle "d" ⟨none, some (some "b")⟩ "b" [5]
    rfl rfl rfl (Or.inl rfl)

/-- World for the C1 example: documents `a` and `c` resolve fine, document
`b`'s page lacks the content container. -/
def wPartial : World where
  http := fun u =>
    if u = mobilebasic_url "b" then some ⟨200, [], "B"⟩ else some ⟨200, [], "A"⟩
  parse := fun t => if t = "B" then ⟨none, none⟩ else ⟨none, some (some "c")⟩
  convert := fun _ => some [7]

/-- C1: the archive build catches every per-id failure, logs the offending
id (second component) and continues: the archive is exactly the
concatenation, in order, of the entries of the ids that succeeded; an empty
id list gives the empty archive (a valid empty zip buffer, not an error);
when every id fails — in particular whenever `doc_type` is invalid — the
archive is empty and every id is logged; and with one of three document ids
failing (missing content container) the zip has exactly two entries and the
third id is logged. -/
theorem download_spec (w : World) (dt : String) (ids : List String) :
    (download w dt ids).1 = (ids.filterMap (process_doc_id w dt)).flatten
    ∧ (download w dt ids).2
        = ids.filter (fun i => (process_doc_id w dt i).isNone)
    ∧ download w dt ([] : List String) = ([], [])
    ∧ ((∀ i ∈ ids, process_doc_id w dt i = none) →
        download w dt ids = ([], ids))
    ∧ (dt ≠ "docx" → dt ≠ "csv" → download w dt ids = ([], ids))
    ∧ download wPartial "docx" ["a", "b", "c"]
        = ([("document_a.docx", [7]), ("document_c.docx", [7])], ["b"]) := by
  have key : (∀ i ∈ ids, process_doc_id w dt i = none) →
      download w dt ids = ([], ids) := by
    intro h
    have h1 : ids.filterMap (process_doc_id w dt) = [] :=
      List.filterMap_eq_nil_iff.mpr h
    have h2 : ids.filter (fun i => (process_doc_id w dt i).isNone) = ids :=
      List.filter_eq_self.mpr (fun i hi => by rw [h i hi]; rfl)
    rw [download_eq, h1, h2]
    rfl
  refine ⟨?_, ?_, rfl, key, ?_, by decide⟩
  · rw [download_eq]
  · rw [download_eq]
  · intro hdocx hcsv
    apply key
    intro i hi
    unfold process_doc_id
    rw [if_neg hdocx, if_neg hcsv]

/-- World for the C1 witness: every URL is unreachable. -/
def wInvalidType : World where
  http := fun _ => none
  parse := fun _ => ⟨none, none⟩
  convert := fun _ => none

/-- Witness for C1: an invalid `doc_type` fails every id; the result is the
valid empty archive with both ids logged, not an error. -/
theorem download_spec_witness :
    download wInvalidType "pdf" ["x", "y"] = ([], ["x", "y"]) :=
  (download_spec wInvalidType "pdf" ["x", "y"]).2.2.2.2.1
    (by decide) (by decide)

/-- World for the C8 counterexample: every document page resolves with no
title, so the fallback filename is derived from the requested id alone. -/
def wDup : World where
  http := fun _ => some ⟨200, [], ""⟩
  parse := fun _ => ⟨none, some (some "c")⟩
  convert := fun _ => some [0]

/-- Counterexample to C8 as stated: requesting the same document id twice
produces two archive entries with the identical path
`document_x.docx` — the archive paths are not pairwise distinct. -/
theorem archive_duplicate_paths_cex :
    (download wDup "docx" ["x", "x"]).1.map Prod.fst
      = ["document_x.docx", "document_x.docx"]
    ∧ ¬ ((download wDup "docx" ["x", "x"]).1.map Prod.fst).Nodup :=
  ⟨by decide, by decide⟩

theorem get_sheet_ids_nodup (w : World) (sid : String) :
    (get_sheet_ids w sid).Nodup := by
  unfold get_sheet_ids
  cases hf : fetch_url w (htmlview_url sid) with
  | none => simp
  | some r =>
    cases hg : findGids r.text.data with
    | nil =>
      simp only [hg]
      simp
    | cons a l =>
      simp only [hg]
      exact dedupFirst_nodup _

/-- C8 (amended): the entries contributed by any single requested id have
pairwise distinct paths — a document id contributes one entry, and a
spreadsheet id's tab entries `<dirname>/<tab_id>.csv` are distinct because
the discovered tab ids are deduplicated; across different (or repeated)
requested ids, path collisions are possible and not prevented. -/
theorem entries_nodup_per_id (w : World) (dt doc_id : String)
    (entries : List (String × List Nat))
    (h : process_doc_id w dt doc_id = some entries) :
    (entries.map Prod.fst).Nodup := by
  unfold process_doc_id at h
  by_cases h1 : dt = "docx"
  · rw [if_pos h1] at h
    cases hcd : create_document w doc_id with
    | error e =>
      simp only [hcd] at h
      exact absurd h (by simp)
    | ok p =>
      obtain ⟨fn, bs⟩ := p
      simp only [hcd, Option.some.injEq] at h
      rw [← h]
      simp
  · rw [if_neg h1] at h
    by_cases h2 : dt = "csv"
    · rw [if_pos h2] at h
      cases ht : get_spreadsheet_title w doc_id with
      | error e =>
        simp only [ht] at h
        exact absurd h (by simp)
      | ok dirname =>
        cases hcs : (create_spreadsheet w doc_id).1 with
        | error e =>
          simp only [ht, hcs] at h
          exact absurd h (by simp)
        | ok files =>
          simp only [ht, hcs, Option.some.injEq] at h
          have hfiles := create_spreadsheet_ok_files w doc_id files hcs
          have hstep :
              (files.map (fun p => (dirname ++ "/" ++ p.1, p.2))).map Prod.fst
                = (files.map Prod.fst).map (fun n => dirname ++ "/" ++ n) := by
            rw [List.map_map, List.map_map]
            rfl
          rw [← h, hstep]
          apply List.Nodup.map
          · intro a b hab
            have hab2 : (dirname ++ "/") ++ a = (dirname ++ "/") ++ b := hab
            exact string_append_left_cancel hab2
          · have hmapfst : ∀ t, ((create_sheet w doc_id t).map
                  (fun bs => (t ++ ".csv", bs))).map Prod.fst
                = (create_sheet w doc_id t).map (fun _ => t ++ ".csv") := by
              intro t
              rw [Option.map_map]
              rfl
            rw [hfiles, List.map_filterMap]
            simp only [hmapfst]
            apply List.Nodup.filterMap
            · intro a a' b hb hb'
              have hba : b = a ++ ".csv" := by
                cases hca : create_sheet w doc_id a with
                | none =>
                  rw [hca] at hb
                  exact absurd hb (by simp)
                | some bs =>
                  rw [hca] at hb
                  simpa using hb.symm
              have hba' : b = a' ++ ".csv" := by
                cases hca : create_sheet w doc_id a' with
                | none =>
                  rw [hca] at hb'
                  exact absurd hb' (by simp)
                | some bs =>
                  rw [hca] at hb'
                  simpa using hb'.symm
              exact string_append_right_cancel (hba ▸ hba')
            · exact get_sheet_ids_nodup w doc_id
    · rw [if_neg h2] at h
      exact absurd h (by simp)

/-- Witness for C8 (amended): the single-id entry list of a concrete
document request has distinct paths. -/
theorem entries_nodup_per_id_witness :
    (([("document_x.docx", [0])] : List (String × List Nat)).map
      Prod.fst).Nodup :=
  entries_nodup_per_id wDup "docx" "x" [("document_x.docx", [0])] (by decide)

/-- World for C9: the HTTP layer answers exactly the export URL assembled
from the hostile identifier, showing the request is issued against the
smuggled URL. -/
def wSmuggle : World where
  http := fun u =>
    if u = export_url "abc/../evil?x=1&" "0"
    then some ⟨200, [65], "A"⟩
    else none
  parse := fun _ => ⟨none, none⟩
  convert := fun _ => none

/-- C9: no validation of caller-supplied identifiers exists anywhere in the
program — an identifier containing path traversal and query metacharacters
is interpolated verbatim into every outbound URL template, and the export
fetch is issued against the resulting smuggled URL. -/
theorem unsafe_id_reaches_url :
    export_url "abc/../evil?x=1&" "0"
      = "https://docs.google.com/spreadsheets/d/abc/../evil?x=1&/export?format=csv&gid=0"
    ∧ mobilebasic_url "../evil?"
      = "https://docs.google.com/document/d/../evil?/mobilebasic"
    ∧ htmlview_url "../evil?"
      = "https://docs.google.com/spreadsheets/u/0/d/../evil?/htmlview"
    ∧ create_sheet wSmuggle "abc/../evil?x=1&" "0" = some [65] :=
  ⟨rfl, rfl, rfl, by decide⟩
